import Mathlib

/-!
A shallow embedding of the `home-assistant-incoming-webhook` service
(`src/webhook/src/{auth,config,models,ha_integration,main}.py`) and proofs
about it.  Python dicts whose values the code never inspects are modelled
as association lists of strings; outbound HTTP traffic is modelled by an
explicit environment `Env` mapping each issued request to its outcome, and
every operation returns its result together with the list of requests it
issued, in order.
-/

set_option autoImplicit false

namespace Webhook

/-! ### Dicts (Python `dict` with string keys) -/

/-- A Python dict with string keys: an association list without duplicate
keys, in insertion order.  Values are strings because the service never
inspects attribute values, only moves them around. -/
abbrev Dict (α : Type) := List (String × α)

/-- First-occurrence lookup, `d.get(k)`. -/
def dlookup {α : Type} (d : Dict α) (k : String) : Option α :=
  match d with
  | [] => none
  | (k', v) :: rest => if k' = k then some v else dlookup rest k

/-- `d[k] = v`: replace the value at the first occurrence of `k`, keeping
its position, or append the pair at the end (CPython dict insertion). -/
def dinsert {α : Type} (d : Dict α) (k : String) (v : α) : Dict α :=
  match d with
  | [] => [(k, v)]
  | (k', v') :: rest =>
      if k' = k then (k, v) :: rest else (k', v') :: dinsert rest k v

/-- `d1.update(d2)`: insert every pair of `d2` into `d1`, left to right. -/
def dupdate {α : Type} (d1 d2 : Dict α) : Dict α :=
  d2.foldl (fun acc kv => dinsert acc kv.1 kv.2) d1

/-- The keys of a dict, in order. -/
def dkeys {α : Type} (d : Dict α) : List String := d.map Prod.fst

theorem dlookup_dinsert_self {α : Type} (d : Dict α) (k : String) (v : α) :
    dlookup (dinsert d k v) k = some v := by
  induction d with
  | nil => simp [dinsert, dlookup]
  | cons hd tl ih =>
      by_cases h : hd.1 = k
      · simp [dinsert, dlookup, h]
      · simp [dinsert, dlookup, h, ih]

theorem dlookup_dinsert_ne {α : Type} (d : Dict α) (k k' : String) (v : α)
    (h : k' ≠ k) : dlookup (dinsert d k v) k' = dlookup d k' := by
  have h' : k ≠ k' := Ne.symm h
  induction d with
  | nil => simp [dinsert, dlookup, h']
  | cons hd tl ih =>
      obtain ⟨k₀, v₀⟩ := hd
      by_cases hk : k₀ = k
      · subst hk
        simp [dinsert, dlookup, h']
      · by_cases hk' : k₀ = k'
        · simp [dinsert, dlookup, hk, hk', h]
        · simp [dinsert, dlookup, hk, hk', ih]

theorem dlookup_eq_none_of_not_mem {α : Type} (d : Dict α) (k : String)
    (h : k ∉ dkeys d) : dlookup d k = none := by
  induction d with
  | nil => simp [dlookup]
  | cons hd tl ih =>
      simp only [dkeys, List.map_cons, List.mem_cons, not_or] at h
      have h1 : hd.1 ≠ k := fun he => h.1 he.symm
      have h2 : k ∉ dkeys tl := by simpa [dkeys] using h.2
      simp [dlookup, h1, ih h2]

/-- `d1.update(d2)` looked up at `k`, when `d2` has no duplicate keys (as a
real Python dict never does): the supplied value wins, otherwise the
original survives. -/
theorem dlookup_dupdate {α : Type} (d1 d2 : Dict α) (k : String)
    (hnd : (dkeys d2).Nodup) :
    dlookup (dupdate d1 d2) k = (dlookup d2 k).or (dlookup d1 k) := by
  induction d2 generalizing d1 with
  | nil => simp [dupdate, dlookup]
  | cons hd tl ih =>
      simp only [dkeys, List.map_cons, List.nodup_cons] at hnd
      have step : dupdate d1 (hd :: tl) = dupdate (dinsert d1 hd.1 hd.2) tl := by
        simp [dupdate, List.foldl_cons]
      rw [step, ih _ hnd.2]
      by_cases hk : hd.1 = k
      · subst hk
        rw [dlookup_eq_none_of_not_mem tl hd.1 hnd.1]
        simp [dlookup, dlookup_dinsert_self]
      · have : dlookup (dinsert d1 hd.1 hd.2) k = dlookup d1 k :=
          dlookup_dinsert_ne d1 hd.1 k hd.2 (fun h => hk h.symm)
        rw [this]
        simp [dlookup, hk]

/-! ### Configuration (`config.py`, `models.py`) -/

/-- `models.SwitchConfig`. -/
structure SwitchConfig where
  id : String
  name : String
  icon : String
  deriving DecidableEq, Repr

/-- `AppConfig.get_switch_by_id`: linear scan over `self.switches`,
returning the first switch whose `id` matches, else `None`. -/
def get_switch_by_id (switches : List SwitchConfig) (switch_id : String) :
    Option SwitchConfig :=
  match switches with
  | [] => none
  | s :: rest =>
      if s.id = switch_id then some s else get_switch_by_id rest switch_id

/-! ### JWT verification (`auth.py`)

The PyJWT calls `jwt.encode` / `jwt.decode` are third-party library code;
they are modelled here.  A token carries its decoded claim set and the
signature string it was issued with; the HMAC-SHA256 signature is modelled
by the deterministic tag `mkSig secret claims` (the real MAC is a
deterministic function of the secret and of the signed payload, and
verification succeeds exactly when the tags agree). Claim values that
matter to the code are the numeric `exp` timestamp, so claims are
string-keyed integers. -/

/-- Encoding of a claim set used by the modelled signature. -/
def encodeClaims (claims : Dict Int) : String :=
  claims.foldl (fun acc kv => acc ++ kv.1 ++ "=" ++ toString kv.2 ++ ";") ""

/-- Modelled HMAC-SHA256 tag over the payload. -/
def mkSig (secret : String) (claims : Dict Int) : String :=
  "HS256(" ++ secret ++ "|" ++ encodeClaims claims ++ ")"

/-- A JWT: its decoded claims and the signature it carries. -/
structure JwtToken where
  claims : Dict Int
  sig : String
  deriving DecidableEq, Repr

/-- Signature check: the carried tag is the one the secret produces. -/
def sigOk (secret : String) (t : JwtToken) : Bool :=
  t.sig == mkSig secret t.claims

/-- Errors `jwt.decode` can raise that `auth.py` distinguishes. -/
inductive JwtError where
  | expiredSignatureError
  | invalidTokenError
  deriving DecidableEq, Repr

/-- `jwt.decode(token, secret, algorithms=["HS256"])` (PyJWT, modelled):
rejects a bad signature with `InvalidTokenError`, rejects a present `exp`
claim strictly in the past with `ExpiredSignatureError` (zero leeway), and
otherwise returns the decoded payload. -/
def jwt_decode (secret : String) (now : Int) (t : JwtToken) :
    Except JwtError (Dict Int) :=
  if sigOk secret t then
    match dlookup t.claims "exp" with
    | some e => if e < now then .error .expiredSignatureError else .ok t.claims
    | none => .ok t.claims
  else .error .invalidTokenError

/-- `auth.verify_jwt_token`: decode, then re-check a present `exp` claim
against the current time, mapping every failure to HTTP 401. -/
def verify_jwt_token (secret : String) (now : Int) (t : JwtToken) :
    Except Nat (Dict Int) :=
  match jwt_decode secret now t with
  | .ok payload =>
      match dlookup payload "exp" with
      | some e => if now > e then .error 401 else .ok payload
      | none => .ok payload
  | .error _ => .error 401

/-! ### Home Assistant client (`ha_integration.py`)

Outbound HTTP is modelled by an environment assigning to every possible
request its outcome.  Every operation returns `(result, issued requests)`;
the request list records the calls in the order the code makes them. -/

/-- The JSON bodies the client ever sends (the literal dicts in
`ha_integration.py`). -/
inductive Payload where
  /-- `{"entity_id": ...}` for the three `input_boolean` service calls. -/
  | entity (entity_id : String)
  /-- `{"state": ..., "attributes": ...}` for `POST states/{entity_id}`. -/
  | stateUpdate (state : String) (attributes : Dict String)
  /-- `{"name": ..., "icon": ..., "initial": False}` for
  `POST services/input_boolean/create`. -/
  | createHelper (name : String) (icon : String) (initial : Bool)
  deriving DecidableEq, Repr

/-- One outbound HTTP request as `_make_request` issues it:
`session.request(method, url, headers=..., json=json_data,
timeout=ClientTimeout(total=10))`. -/
structure Request where
  method : String
  url : String
  json_data : Option Payload
  timeout : Nat
  deriving DecidableEq, Repr

/-- The JSON body of a `GET states/{entity_id}` response, as far as the
code reads it: `response.get("state", ...)` and
`response.get("attributes", ...)`. -/
structure HAResponse where
  state : Option String
  attributes : Option (Dict String)
  deriving DecidableEq, Repr

/-- The remote side: what each request would return (`.error ()` models
`raise_for_status` / `aiohttp.ClientError`, re-raised by `_make_request`
as a plain `Exception`). -/
abbrev Env := Request → Except Unit HAResponse

/-- The client object state set in `HomeAssistantClient.__init__`. -/
structure HAClient where
  base_url : String
  token : String
  deriving DecidableEq, Repr

/-- `HomeAssistantClient._get_entity_id`. -/
def get_entity_id (switch_id : String) : String :=
  "input_boolean.webhook_" ++ switch_id

/-- The request `_make_request` builds: `url = f"{base_url}/api/{endpoint}"`,
fixed total timeout of 10 seconds. -/
def mkReq (c : HAClient) (method endpoint : String)
    (json_data : Option Payload) : Request :=
  ⟨method, c.base_url ++ "/api/" ++ endpoint, json_data, 10⟩

/-- `HomeAssistantClient._make_request`: issue the request, return the
response body or propagate the failure as an exception. -/
def make_request (c : HAClient) (env : Env) (method endpoint : String)
    (json_data : Option Payload) : Except Unit HAResponse × List Request :=
  (env (mkReq c method endpoint json_data), [mkReq c method endpoint json_data])

/-- What `get_state` returns: `{"state": ..., "attributes": ...}`. -/
structure StateInfo where
  state : String
  attributes : Dict String
  deriving DecidableEq, Repr

/-- `HomeAssistantClient.get_state`: `GET states/{entity_id}`, defaulting a
missing `state` to `"unknown"` and missing `attributes` to `{}`; a request
failure is re-raised. -/
def get_state (c : HAClient) (env : Env) (switch_id : String) :
    Except Unit StateInfo × List Request :=
  let r := make_request c env "GET" ("states/" ++ get_entity_id switch_id) none
  (r.1.map fun resp => ⟨resp.state.getD "unknown", resp.attributes.getD []⟩,
   r.2)

/-- `HomeAssistantClient.turn_on`. -/
def turn_on (c : HAClient) (env : Env) (switch_id : String) :
    Except Unit Unit × List Request :=
  let r := make_request c env "POST" "services/input_boolean/turn_on"
      (some (.entity (get_entity_id switch_id)))
  (r.1.map fun _ => (), r.2)

/-- `HomeAssistantClient.turn_off`. -/
def turn_off (c : HAClient) (env : Env) (switch_id : String) :
    Except Unit Unit × List Request :=
  let r := make_request c env "POST" "services/input_boolean/turn_off"
      (some (.entity (get_entity_id switch_id)))
  (r.1.map fun _ => (), r.2)

/-- `HomeAssistantClient.toggle`. -/
def toggle (c : HAClient) (env : Env) (switch_id : String) :
    Except Unit Unit × List Request :=
  let r := make_request c env "POST" "services/input_boolean/toggle"
      (some (.entity (get_entity_id switch_id)))
  (r.1.map fun _ => (), r.2)

/-- The attribute dictionary `set_attributes` writes:
`updated_attributes = current.copy(); updated_attributes.update(attributes);
updated_attributes["last_triggered_at"] = datetime.now().isoformat()`. -/
def mergedAttributes (current attributes : Dict String) (nowStr : String) :
    Dict String :=
  dinsert (dupdate current attributes) "last_triggered_at" nowStr

/-- `HomeAssistantClient.set_attributes`: read the current state, merge the
supplied attributes over the current ones, stamp `last_triggered_at` with
the current time, and `POST states/{entity_id}` with the unchanged state
value; a failure of that final write is caught and only logged, while a
failure of the initial read propagates. -/
def set_attributes (c : HAClient) (env : Env) (nowStr : String)
    (switch_id : String) (attributes : Dict String) :
    Except Unit Unit × List Request :=
  match get_state c env switch_id with
  | (.error e, tr) => (.error e, tr)
  | (.ok cur, tr1) =>
      match make_request c env "POST" ("states/" ++ get_entity_id switch_id)
          (some (.stateUpdate cur.state
            (mergedAttributes cur.attributes attributes nowStr))) with
      | (_, tr2) => (.ok (), tr1 ++ tr2)

/-- `HomeAssistantClient.ensure_switch_exists`: probe
`GET states/{entity_id}`; on failure, `POST services/input_boolean/create`,
returning `False` only when that creation call also fails. -/
def ensure_switch_exists (c : HAClient) (env : Env) (sw : SwitchConfig) :
    Except Unit Bool × List Request :=
  match make_request c env "GET" ("states/" ++ get_entity_id sw.id) none with
  | (.ok _, tr) => (.ok true, tr)
  | (.error _, tr1) =>
      match make_request c env "POST" "services/input_boolean/create"
          (some (.createHelper sw.name sw.icon false)) with
      | (.ok _, tr2) => (.ok true, tr1 ++ tr2)
      | (.error _, tr2) => (.ok false, tr1 ++ tr2)

/-! ### The webhook endpoint (`main.py`, `models.py`) -/

/-- `models.WebhookRequest.action`, a `Literal["on","off","toggle","status"]`:
schema validation admits exactly these four actions. -/
inductive WAction where
  | on | off | toggle | status
  deriving DecidableEq, Repr

/-- `models.WebhookRequest` after schema validation. -/
structure WebhookRequest where
  switch_id : String
  action : WAction
  attributes : Option (Dict String)
  deriving DecidableEq, Repr

/-- The success body built by the handler (`models.WebhookResponse`). -/
structure WebhookResponse where
  status : String
  switch_id : String
  action : WAction
  state : String
  attributes : Dict String
  deriving DecidableEq, Repr

/-- The `if action == "on" ... elif ... elif ...` dispatch in the handler;
`"status"` performs no action call. -/
def dispatchAction (c : HAClient) (env : Env) (a : WAction)
    (switch_id : String) : Except Unit Unit × List Request :=
  match a with
  | .on => turn_on c env switch_id
  | .off => turn_off c env switch_id
  | .toggle => toggle c env switch_id
  | .status => (.ok (), [])

/-- The `POST /webhook` handler body (`main.webhook`), after authentication:
404 when the switch id is not configured; otherwise dispatch the action,
merge attributes when `request.attributes or {}` is non-empty (Python
truthiness), fetch the final state, and translate any exception from those
calls into HTTP 500.  `.error n` is an `HTTPException(status_code=n)`. -/
def webhook (c : HAClient) (cfg : List SwitchConfig) (env : Env)
    (nowStr : String) (req : WebhookRequest) :
    Except Nat WebhookResponse × List Request :=
  match get_switch_by_id cfg req.switch_id with
  | none => (.error 404, [])
  | some _ =>
      match dispatchAction c env req.action req.switch_id with
      | (.error _, t1) => (.error 500, t1)
      | (.ok _, t1) =>
          match (if (req.attributes.getD []) = [] then (.ok (), [])
                 else set_attributes c env nowStr req.switch_id
                        (req.attributes.getD [])) with
          | (.error _, t2) => (.error 500, t1 ++ t2)
          | (.ok _, t2) =>
              match get_state c env req.switch_id with
              | (.error _, t3) => (.error 500, t1 ++ t2 ++ t3)
              | (.ok st, t3) =>
                  (.ok ⟨"success", req.switch_id, req.action, st.state,
                        st.attributes⟩, t1 ++ t2 ++ t3)

/-- The full endpoint: the `verify_authentication` dependency runs first and
a 401 from it aborts the request before the handler body executes (so no
outbound request is issued). -/
def webhook_endpoint (c : HAClient) (cfg : List SwitchConfig) (env : Env)
    (secret : String) (now : Int) (nowStr : String) (tok : JwtToken)
    (req : WebhookRequest) : Except Nat WebhookResponse × List Request :=
  match verify_jwt_token secret now tok with
  | .error code => (.error code, [])
  | .ok _ => webhook c cfg env nowStr req

/-! ### Derived request descriptions and auxiliary notions -/

/-- The `GET states/{entity_id}` request for a switch (issued by
`get_state` and by the probe in `ensure_switch_exists`). -/
def stateReq (c : HAClient) (sid : String) : Request :=
  mkReq c "GET" ("states/" ++ get_entity_id sid) none

/-- The `POST states/{entity_id}` request `set_attributes` issues. -/
def statePostReq (c : HAClient) (sid : String) (p : Payload) : Request :=
  mkReq c "POST" ("states/" ++ get_entity_id sid) (some p)

/-- The `turn_on` service-call request. -/
def onReq (c : HAClient) (sid : String) : Request :=
  mkReq c "POST" "services/input_boolean/turn_on"
    (some (.entity (get_entity_id sid)))

/-- The `turn_off` service-call request. -/
def offReq (c : HAClient) (sid : String) : Request :=
  mkReq c "POST" "services/input_boolean/turn_off"
    (some (.entity (get_entity_id sid)))

/-- The `toggle` service-call request. -/
def toggleReq (c : HAClient) (sid : String) : Request :=
  mkReq c "POST" "services/input_boolean/toggle"
    (some (.entity (get_entity_id sid)))

/-- A request addresses the entity `e`: either its URL is the state
endpoint of `e`, or its JSON body names `e` as the `entity_id`. -/
def targetsEntity (c : HAClient) (e : String) (r : Request) : Prop :=
  r.url = c.base_url ++ "/api/" ++ ("states/" ++ e) ∨
  r.json_data = some (.entity e)

/-- The shape of a call, for stating in which order the handler issues its
outbound requests. -/
def callKind (r : Request) : String × String := (r.method, r.url)

/-- The request the action dispatch issues: one service call for
`on`/`off`/`toggle`, none for `status`. -/
def actionReqList (c : HAClient) (a : WAction) (sid : String) :
    List Request :=
  match a with
  | .on => [onReq c sid]
  | .off => [offReq c sid]
  | .toggle => [toggleReq c sid]
  | .status => []

/-- The kind of the attribute-merge write (its payload varies with the
remote state, its method and URL do not). -/
def statePostKind (c : HAClient) (sid : String) : String × String :=
  ("POST", c.base_url ++ "/api/" ++ ("states/" ++ get_entity_id sid))

/-- The full sequence of call kinds a handled request can give rise to:
the action call (none for `status`), then — only when attributes are
supplied — the read and write of the attribute merge, then the final state
fetch.  The handler's actual trace is always an initial segment of this
sequence, and equals it on success. -/
def expectedKinds (c : HAClient) (req : WebhookRequest) :
    List (String × String) :=
  (actionReqList c req.action req.switch_id).map callKind ++
  (if req.attributes.getD [] = [] then []
   else [callKind (stateReq c req.switch_id),
         statePostKind c req.switch_id]) ++
  [callKind (stateReq c req.switch_id)]

/-- `l₁` is an initial segment of `l₂`. -/
def initSeg {α : Type} (l₁ l₂ : List α) : Prop := ∃ t, l₁ ++ t = l₂

/-- The per-switch outbound operations `HomeAssistantClient` exposes, in
source order. -/
inductive ClientOp where
  | getState | turnOn | turnOff | toggleOp | setAttributes
  deriving DecidableEq, Repr

/-- The list of those operations (the methods defined on the client that
issue requests on behalf of one switch). -/
def clientOps : List ClientOp :=
  [.getState, .turnOn, .turnOff, .toggleOp, .setAttributes]

/-- Dispatch a `ClientOp` to the embedded client method, discarding the
operation-specific result type. -/
def runOp (c : HAClient) (env : Env) (nowStr sid : String)
    (attrs : Dict String) : ClientOp → Except Unit Unit × List Request
  | .getState =>
      ((get_state c env sid).1.map fun _ => (), (get_state c env sid).2)
  | .turnOn => turn_on c env sid
  | .turnOff => turn_off c env sid
  | .toggleOp => toggle c env sid
  | .setAttributes => set_attributes c env nowStr sid attrs

/-! ### Concrete scenario used by the counterexamples and witnesses -/

/-- A concrete client. -/
def demoClient : HAClient := ⟨"http://supervisor/core", "tkn"⟩

/-- A concrete one-switch configuration. -/
def demoCfg : List SwitchConfig := [⟨"sw1", "Switch 1", "mdi:light-switch"⟩]

/-- A remote side on which every call succeeds. -/
def demoEnv : Env := fun _ => .ok ⟨some "on", some [("room", "kitchen")]⟩

/-- A concrete `on` request that supplies attributes. -/
def demoReqAttrs : WebhookRequest := ⟨"sw1", .on, some [("src", "test")]⟩

/-- A remote side on which exactly the attribute-write
(`POST states/{entity}`) fails and every other call succeeds. -/
def demoWriteFailEnv : Env := fun r =>
  if r.method = "POST" ∧
     r.url = demoClient.base_url ++ "/api/" ++
       ("states/" ++ get_entity_id "sw1")
  then .error ()
  else .ok ⟨some "off", some []⟩

/-- A remote side on which every call fails. -/
def demoAllFailEnv : Env := fun _ => .error ()

/-! ### Theorems -/

/-! #### Evaluation lemmas for the client operations -/

theorem get_state_eq_ok (c : HAClient) (env : Env) (sid : String)
    (resp : HAResponse) (h : env (stateReq c sid) = .ok resp) :
    get_state c env sid =
      (.ok ⟨resp.state.getD "unknown", resp.attributes.getD []⟩,
       [stateReq c sid]) := by
  simp only [stateReq] at h
  simp [get_state, make_request, h, Except.map, stateReq]

theorem get_state_eq_error (c : HAClient) (env : Env) (sid : String)
    (e : Unit) (h : env (stateReq c sid) = .error e) :
    get_state c env sid = (.error e, [stateReq c sid]) := by
  simp only [stateReq] at h
  simp [get_state, make_request, h, Except.map, stateReq]

theorem set_attributes_eq_of_read_ok (c : HAClient) (env : Env)
    (nowStr sid : String) (attrs : Dict String) (resp : HAResponse)
    (h : env (stateReq c sid) = .ok resp) :
    set_attributes c env nowStr sid attrs =
      (.ok (),
       [stateReq c sid,
        statePostReq c sid
          (.stateUpdate (resp.state.getD "unknown")
            (mergedAttributes (resp.attributes.getD []) attrs nowStr))]) := by
  simp only [set_attributes, get_state_eq_ok c env sid resp h]
  simp [make_request, stateReq, statePostReq]

theorem set_attributes_eq_of_read_error (c : HAClient) (env : Env)
    (nowStr sid : String) (attrs : Dict String) (e : Unit)
    (h : env (stateReq c sid) = .error e) :
    set_attributes c env nowStr sid attrs = (.error e, [stateReq c sid]) := by
  simp only [set_attributes, get_state_eq_error c env sid e h]

theorem dispatchAction_snd (c : HAClient) (env : Env) (a : WAction)
    (sid : String) :
    (dispatchAction c env a sid).2 = actionReqList c a sid := by
  cases a <;> rfl

theorem dispatchAction_on_eq (c : HAClient) (env : Env) (sid : String) :
    dispatchAction c env .on sid =
      ((env (onReq c sid)).map fun _ => (), [onReq c sid]) := rfl

theorem dispatchAction_status_eq (c : HAClient) (env : Env) (sid : String) :
    dispatchAction c env .status sid = (.ok (), []) := rfl

/-- A token whose signature does not verify is rejected with 401. -/
theorem verify_eq_of_bad_sig (secret : String) (now : Int) (t : JwtToken)
    (hs : ¬ sigOk secret t = true) :
    verify_jwt_token secret now t = .error 401 := by
  simp [verify_jwt_token, jwt_decode, hs]

/-- A correctly signed token without an `exp` claim is accepted. -/
theorem verify_eq_of_no_exp (secret : String) (now : Int) (t : JwtToken)
    (hs : sigOk secret t = true) (he : dlookup t.claims "exp" = none) :
    verify_jwt_token secret now t = .ok t.claims := by
  simp [verify_jwt_token, jwt_decode, hs, he]

/-- A correctly signed token with an `exp` claim is accepted exactly when
the current time has not passed it (the library check and the handler's
re-check impose the same bound). -/
theorem verify_eq_of_exp (secret : String) (now e : Int) (t : JwtToken)
    (hs : sigOk secret t = true) (he : dlookup t.claims "exp" = some e) :
    verify_jwt_token secret now t =
      if e < now then .error 401 else .ok t.claims := by
  by_cases hlt : e < now
  · simp [verify_jwt_token, jwt_decode, hs, he, hlt]
  · have hng : ¬ now > e := by omega
    simp [verify_jwt_token, jwt_decode, hs, he, hlt, hng]

/-- C1: `verify_jwt_token` returns the decoded payload exactly when the
signature verifies under the configured secret (HS256) and, when an `exp`
claim is present, the current time is not past it; in every other case it
fails with HTTP 401; and a token with a valid signature and no `exp` claim
is accepted. -/
theorem C1_token_verification (secret : String) (now : Int) (t : JwtToken) :
    (verify_jwt_token secret now t = .ok t.claims ↔
      (sigOk secret t = true ∧
        ∀ e, dlookup t.claims "exp" = some e → now ≤ e)) ∧
    (verify_jwt_token secret now t = .ok t.claims ∨
      verify_jwt_token secret now t = .error 401) ∧
    (sigOk secret t = true → dlookup t.claims "exp" = none →
      verify_jwt_token secret now t = .ok t.claims) := by
  by_cases hs : sigOk secret t
  · cases he : dlookup t.claims "exp" with
    | none =>
        rw [verify_eq_of_no_exp secret now t hs he]
        simp [hs]
    | some e =>
        rw [verify_eq_of_exp secret now e t hs he]
        by_cases hlt : e < now
        · rw [if_pos hlt]
          refine ⟨?_, Or.inr rfl, fun _ hn => Option.noConfusion hn⟩
          constructor
          · intro h; exact Except.noConfusion h
          · rintro ⟨-, hall⟩
            have := hall e rfl
            omega
        · rw [if_neg hlt]
          refine ⟨?_, Or.inl rfl, fun _ _ => rfl⟩
          refine ⟨fun _ => ⟨hs, fun e' he' => ?_⟩, fun _ => rfl⟩
          cases he'
          omega
  · rw [verify_eq_of_bad_sig secret now t hs]
    refine ⟨?_, Or.inr rfl, fun h _ => absurd h hs⟩
    constructor
    · intro h; exact Except.noConfusion h
    · rintro ⟨h, -⟩; exact absurd h hs

/-- Witness for C1: a concrete correctly-signed token with no `exp` claim
is accepted with its payload. -/
theorem C1_token_verification_witness :
    verify_jwt_token "s3cret" 100
        ⟨[("iss", 7)], mkSig "s3cret" [("iss", 7)]⟩ = .ok [("iss", 7)] :=
  (C1_token_verification "s3cret" 100
      ⟨[("iss", 7)], mkSig "s3cret" [("iss", 7)]⟩).2.2 (by decide) (by decide)

/-- C5: `get_switch_by_id` returns `None` exactly when no configured switch
has the given id, and any switch it returns is the first configured switch
whose id equals the given id. -/
theorem C5_get_switch_by_id (switches : List SwitchConfig) (sid : String) :
    (get_switch_by_id switches sid = none ↔ ∀ s ∈ switches, s.id ≠ sid) ∧
    (∀ s, get_switch_by_id switches sid = some s →
      s.id = sid ∧ ∃ pre post, switches = pre ++ s :: post ∧
        ∀ s' ∈ pre, s'.id ≠ sid) := by
  induction switches with
  | nil =>
      refine ⟨by simp [get_switch_by_id], fun s hs => ?_⟩
      simp [get_switch_by_id] at hs
  | cons hd tl ih =>
      by_cases h : hd.id = sid
      · refine ⟨by simp [get_switch_by_id, h], fun s hs => ?_⟩
        simp only [get_switch_by_id, if_pos h] at hs
        obtain rfl : hd = s := Option.some.inj hs
        exact ⟨h, [], tl, by simp, by simp⟩
      · refine ⟨?_, fun s hs => ?_⟩
        · simp only [get_switch_by_id, if_neg h]
          constructor
          · intro hn s hs
            rcases List.mem_cons.mp hs with rfl | hmem
            · exact h
            · exact ih.1.mp hn s hmem
          · intro hall
            exact ih.1.mpr fun s hs => hall s (List.mem_cons_of_mem _ hs)
        · simp only [get_switch_by_id, if_neg h] at hs
          obtain ⟨hid, pre, post, heq, hpre⟩ := ih.2 s hs
          refine ⟨hid, hd :: pre, post, by simp [heq], fun s' hs' => ?_⟩
          rcases List.mem_cons.mp hs' with rfl | hmem
          · exact h
          · exact hpre s' hmem

/-- Witness for C5: a concrete lookup in a two-switch configuration misses. -/
theorem C5_get_switch_by_id_witness :
    get_switch_by_id
      [⟨"a", "A", "mdi:light-switch"⟩, ⟨"b", "B", "mdi:light-switch"⟩]
      "zz" = none :=
  (C5_get_switch_by_id
      [⟨"a", "A", "mdi:light-switch"⟩, ⟨"b", "B", "mdi:light-switch"⟩]
      "zz").1.mpr (by decide)

/-- C8: the switch-to-entity mapping prepends `input_boolean.webhook_`, it
is injective, and every per-switch client operation addresses exactly the
entity this mapping computes. -/
theorem C8_entity_mapping :
    (∀ sid, get_entity_id sid = "input_boolean.webhook_" ++ sid) ∧
    (∀ a b, get_entity_id a = get_entity_id b → a = b) ∧
    (∀ c env sid attrs nowStr,
      (∀ r ∈ (get_state c env sid).2, targetsEntity c (get_entity_id sid) r) ∧
      (∀ r ∈ (turn_on c env sid).2, targetsEntity c (get_entity_id sid) r) ∧
      (∀ r ∈ (turn_off c env sid).2, targetsEntity c (get_entity_id sid) r) ∧
      (∀ r ∈ (toggle c env sid).2, targetsEntity c (get_entity_id sid) r) ∧
      (∀ r ∈ (set_attributes c env nowStr sid attrs).2,
        targetsEntity c (get_entity_id sid) r)) := by
  refine ⟨fun _ => rfl, ?_, ?_⟩
  · intro a b h
    have h2 := congrArg String.data h
    unfold get_entity_id at h2
    rw [String.data_append, String.data_append] at h2
    exact String.ext (List.append_cancel_left h2)
  · intro c env sid attrs nowStr
    refine ⟨?_, ?_, ?_, ?_, ?_⟩
    · simp [get_state, make_request, targetsEntity, mkReq]
    · simp [turn_on, make_request, targetsEntity, mkReq]
    · simp [turn_off, make_request, targetsEntity, mkReq]
    · simp [toggle, make_request, targetsEntity, mkReq]
    · cases henv : env (mkReq c "GET" ("states/" ++ get_entity_id sid) none) with
      | ok resp =>
          simp only [set_attributes, get_state, make_request, henv, Except.map]
          simp [targetsEntity, mkReq]
      | error e =>
          simp only [set_attributes, get_state, make_request, henv, Except.map]
          simp [targetsEntity, mkReq]

/-- Witness for C8: injectivity applied at two concrete distinct ids, and a
concrete issued request of `turn_on` addressing the mapped entity. -/
theorem C8_entity_mapping_witness :
    ("sw1" = "sw1") ∧
    targetsEntity ⟨"http://supervisor/core", "tkn"⟩ (get_entity_id "sw1")
      (mkReq ⟨"http://supervisor/core", "tkn"⟩ "POST"
        "services/input_boolean/turn_on"
        (some (.entity (get_entity_id "sw1")))) := by
  refine ⟨C8_entity_mapping.2.1 "sw1" "sw1" rfl, ?_⟩
  have h := (C8_entity_mapping.2.2 ⟨"http://supervisor/core", "tkn"⟩
      (fun _ => .error ()) "sw1" [] "T").2.1
  exact h _ (by simp [turn_on, make_request])

/-- C9: `set_attributes` writes the current attributes updated by the
supplied ones (supplied keys win, unsupplied keys survive), then
unconditionally overwrites `last_triggered_at` with the current timestamp,
and writes the state value back unchanged. -/
theorem C9_set_attributes_merge (c : HAClient) (env : Env)
    (nowStr sid : String) (attrs : Dict String) (resp : HAResponse)
    (henv : env (stateReq c sid) = .ok resp)
    (hnd : (dkeys attrs).Nodup) :
    set_attributes c env nowStr sid attrs =
      (.ok (),
       [stateReq c sid,
        statePostReq c sid
          (.stateUpdate (resp.state.getD "unknown")
            (mergedAttributes (resp.attributes.getD []) attrs nowStr))]) ∧
    dlookup (mergedAttributes (resp.attributes.getD []) attrs nowStr)
        "last_triggered_at" = some nowStr ∧
    (∀ k, k ≠ "last_triggered_at" →
      dlookup (mergedAttributes (resp.attributes.getD []) attrs nowStr) k =
        (dlookup attrs k).or (dlookup (resp.attributes.getD []) k)) := by
  refine ⟨set_attributes_eq_of_read_ok c env nowStr sid attrs resp henv,
          dlookup_dinsert_self _ _ _, fun k hk => ?_⟩
  rw [mergedAttributes, dlookup_dinsert_ne _ _ _ _ hk,
      dlookup_dupdate _ _ _ hnd]

/-- Witness for C9: at a concrete environment, the supplied attribute
overrides, the untouched one survives, and a caller-supplied
`last_triggered_at` is still overwritten with the timestamp. -/
theorem C9_set_attributes_merge_witness :
    set_attributes demoClient demoEnv "2026-10-12T00:00:00" "sw1"
        [("src", "test"), ("last_triggered_at", "fake")] =
      (.ok (),
       [stateReq demoClient "sw1",
        statePostReq demoClient "sw1"
          (.stateUpdate "on"
            (mergedAttributes [("room", "kitchen")]
              [("src", "test"), ("last_triggered_at", "fake")]
              "2026-10-12T00:00:00"))]) ∧
    dlookup
        (mergedAttributes [("room", "kitchen")]
          [("src", "test"), ("last_triggered_at", "fake")]
          "2026-10-12T00:00:00") "last_triggered_at" =
      some "2026-10-12T00:00:00" ∧
    dlookup
        (mergedAttributes [("room", "kitchen")]
          [("src", "test"), ("last_triggered_at", "fake")]
          "2026-10-12T00:00:00") "src" =
      (dlookup [("src", "test"), ("last_triggered_at", "fake")] "src").or
        (dlookup [("room", "kitchen")] "src") := by
  have h := C9_set_attributes_merge demoClient demoEnv "2026-10-12T00:00:00"
    "sw1" [("src", "test"), ("last_triggered_at", "fake")]
    ⟨some "on", some [("room", "kitchen")]⟩ rfl (by decide)
  exact ⟨h.1, h.2.1, h.2.2 "src" (by decide)⟩

/-- C10: a failure of the final state-write inside `set_attributes` is
swallowed (the call still returns), only a failure of the preceding state
read propagates; hence a webhook request whose attribute write fails still
completes successfully with the fetched state. -/
theorem C10_attribute_write_failure_swallowed (c : HAClient) (env : Env)
    (nowStr sid : String) (attrs : Dict String) :
    (∀ resp, env (stateReq c sid) = .ok resp →
      (set_attributes c env nowStr sid attrs).1 = .ok ()) ∧
    (∀ e, env (stateReq c sid) = .error e →
      (set_attributes c env nowStr sid attrs).1 = .error e) ∧
    (∀ cfg (req : WebhookRequest) st, req.switch_id = sid →
      get_switch_by_id cfg sid ≠ none →
      (dispatchAction c env req.action sid).1 = .ok () →
      env (stateReq c sid) = .ok st →
      (webhook c cfg env nowStr req).1 =
        .ok ⟨"success", sid, req.action, st.state.getD "unknown",
             st.attributes.getD []⟩) := by
  refine ⟨fun resp h => ?_, fun e h => ?_, ?_⟩
  · rw [set_attributes_eq_of_read_ok c env nowStr sid attrs resp h]
  · rw [set_attributes_eq_of_read_error c env nowStr sid attrs e h]
  · intro cfg req st hsid hcfg hda hst
    subst hsid
    obtain ⟨sw, hsw⟩ := Option.ne_none_iff_exists'.mp hcfg
    rcases hd : dispatchAction c env req.action req.switch_id with ⟨r1, t1⟩
    rw [hd] at hda
    simp only at hda
    subst hda
    by_cases hA : req.attributes.getD [] = []
    · simp [webhook, hsw, hd, hA, get_state_eq_ok c env req.switch_id st hst]
    · simp [webhook, hsw, hd, hA,
            set_attributes_eq_of_read_ok c env nowStr req.switch_id
              (req.attributes.getD []) st hst,
            get_state_eq_ok c env req.switch_id st hst]

/-- Witness for C10: with the concrete environment on which exactly the
attribute write fails, the handler still answers success with the fetched
state. -/
theorem C10_attribute_write_failure_swallowed_witness :
    (set_attributes demoClient demoWriteFailEnv "T" "sw1"
        [("src", "test")]).1 = .ok () ∧
    (webhook demoClient demoCfg demoWriteFailEnv "T" demoReqAttrs).1 =
      .ok ⟨"success", "sw1", .on, "off", []⟩ := by
  have h := C10_attribute_write_failure_swallowed demoClient demoWriteFailEnv
    "T" "sw1" [("src", "test")]
  refine ⟨h.1 ⟨some "off", some []⟩ rfl, ?_⟩
  have h2 := h.2.2 demoCfg demoReqAttrs ⟨some "off", some []⟩ rfl
    (by decide) rfl rfl
  exact h2

/-! #### The handler's result, in all cases -/

/-- Case analysis of the handler: an unconfigured switch gives a 404 with
no outbound call; otherwise the result is either a 500 or a success built
from the final state fetch. -/
theorem webhook_result_cases (c : HAClient) (cfg : List SwitchConfig)
    (env : Env) (nowStr : String) (req : WebhookRequest) :
    (get_switch_by_id cfg req.switch_id = none ∧
      webhook c cfg env nowStr req = (.error 404, [])) ∨
    (get_switch_by_id cfg req.switch_id ≠ none ∧
      ((webhook c cfg env nowStr req).1 = .error 500 ∨
       ∃ st, env (stateReq c req.switch_id) = .ok st ∧
         (webhook c cfg env nowStr req).1 =
           .ok ⟨"success", req.switch_id, req.action,
                st.state.getD "unknown", st.attributes.getD []⟩)) := by
  cases hsw : get_switch_by_id cfg req.switch_id with
  | none => exact Or.inl ⟨rfl, by simp [webhook, hsw]⟩
  | some sw =>
      refine Or.inr ⟨by simp [hsw], ?_⟩
      rcases hd : dispatchAction c env req.action req.switch_id with ⟨r1, t1⟩
      cases r1 with
      | error e => exact Or.inl (by simp [webhook, hsw, hd])
      | ok v =>
          by_cases hA : req.attributes.getD [] = []
          · cases hst : env (stateReq c req.switch_id) with
            | error e =>
                exact Or.inl (by
                  simp [webhook, hsw, hd, hA,
                        get_state_eq_error c env req.switch_id e hst])
            | ok st =>
                refine Or.inr ⟨st, rfl, ?_⟩
                simp [webhook, hsw, hd, hA,
                      get_state_eq_ok c env req.switch_id st hst]
          · cases hst : env (stateReq c req.switch_id) with
            | error e =>
                exact Or.inl (by
                  simp [webhook, hsw, hd, hA,
                        set_attributes_eq_of_read_error c env nowStr
                          req.switch_id (req.attributes.getD []) e hst])
            | ok st =>
                refine Or.inr ⟨st, rfl, ?_⟩
                simp [webhook, hsw, hd, hA,
                      set_attributes_eq_of_read_ok c env nowStr req.switch_id
                        (req.attributes.getD []) st hst,
                      get_state_eq_ok c env req.switch_id st hst]

theorem callKind_statePostReq (c : HAClient) (sid : String) (p : Payload) :
    callKind (statePostReq c sid p) = statePostKind c sid := rfl

/-- C2 (amended): the handler makes no per-request existence-check call
(that probe happens only at startup); it issues, in order, the action call
(none for `status`), then — only when non-empty attributes are supplied —
the attribute-merge state read and state write, then the final state
fetch.  The issued call kinds always form an initial segment of this
sequence (a failure cuts it short), and equal it exactly on success; the
state-read kind appears both inside the merge and as the final fetch. -/
theorem C2_call_sequencing (c : HAClient) (cfg : List SwitchConfig)
    (env : Env) (nowStr : String) (req : WebhookRequest)
    (hcfg : get_switch_by_id cfg req.switch_id ≠ none) :
    initSeg ((webhook c cfg env nowStr req).2.map callKind)
      (expectedKinds c req) ∧
    (∀ resp tr, webhook c cfg env nowStr req = (.ok resp, tr) →
      tr.map callKind = expectedKinds c req) := by
  obtain ⟨sw, hsw⟩ := Option.ne_none_iff_exists'.mp hcfg
  rcases hd : dispatchAction c env req.action req.switch_id with ⟨r1, t1⟩
  have ht1 : t1 = actionReqList c req.action req.switch_id := by
    have h := dispatchAction_snd c env req.action req.switch_id
    rw [hd] at h
    exact h
  subst ht1
  cases r1 with
  | error e =>
      have hw : webhook c cfg env nowStr req =
          (.error 500, actionReqList c req.action req.switch_id) := by
        simp [webhook, hsw, hd]
      constructor
      · refine ⟨(if req.attributes.getD [] = [] then []
            else [callKind (stateReq c req.switch_id),
                  statePostKind c req.switch_id]) ++
            [callKind (stateReq c req.switch_id)], ?_⟩
        rw [hw]
        simp [expectedKinds]
      · intro resp tr h
        rw [hw] at h
        simp at h
  | ok v =>
      by_cases hA : req.attributes.getD [] = []
      · cases hst : env (stateReq c req.switch_id) with
        | error e =>
            have hw : webhook c cfg env nowStr req =
                (.error 500, actionReqList c req.action req.switch_id ++
                  [stateReq c req.switch_id]) := by
              simp [webhook, hsw, hd, hA,
                    get_state_eq_error c env req.switch_id e hst]
            constructor
            · refine ⟨[], ?_⟩
              rw [hw]
              simp [expectedKinds, hA]
            · intro resp tr h
              rw [hw] at h
              simp at h
        | ok st =>
            have hw : webhook c cfg env nowStr req =
                (.ok ⟨"success", req.switch_id, req.action,
                      st.state.getD "unknown", st.attributes.getD []⟩,
                 actionReqList c req.action req.switch_id ++
                   [stateReq c req.switch_id]) := by
              simp [webhook, hsw, hd, hA,
                    get_state_eq_ok c env req.switch_id st hst]
            constructor
            · refine ⟨[], ?_⟩
              rw [hw]
              simp [expectedKinds, hA]
            · intro resp tr h
              have htr : tr = (webhook c cfg env nowStr req).2 :=
                (congrArg Prod.snd h).symm
              subst htr
              rw [hw]
              simp [expectedKinds, hA]
      · cases hst : env (stateReq c req.switch_id) with
        | error e =>
            have hw : webhook c cfg env nowStr req =
                (.error 500, actionReqList c req.action req.switch_id ++
                  [stateReq c req.switch_id]) := by
              simp [webhook, hsw, hd, hA,
                    set_attributes_eq_of_read_error c env nowStr
                      req.switch_id (req.attributes.getD []) e hst]
            constructor
            · refine ⟨[statePostKind c req.switch_id,
                       callKind (stateReq c req.switch_id)], ?_⟩
              rw [hw]
              simp [expectedKinds, hA]
            · intro resp tr h
              rw [hw] at h
              simp at h
        | ok st =>
            have hw : webhook c cfg env nowStr req =
                (.ok ⟨"success", req.switch_id, req.action,
                      st.state.getD "unknown", st.attributes.getD []⟩,
                 actionReqList c req.action req.switch_id ++
                   [stateReq c req.switch_id,
                    statePostReq c req.switch_id
                      (.stateUpdate (st.state.getD "unknown")
                        (mergedAttributes (st.attributes.getD [])
                          (req.attributes.getD []) nowStr)),
                    stateReq c req.switch_id]) := by
              simp [webhook, hsw, hd, hA,
                    set_attributes_eq_of_read_ok c env nowStr req.switch_id
                      (req.attributes.getD []) st hst,
                    get_state_eq_ok c env req.switch_id st hst]
            constructor
            · refine ⟨[], ?_⟩
              rw [hw]
              simp [expectedKinds, hA, callKind_statePostReq]
            · intro resp tr h
              have htr : tr = (webhook c cfg env nowStr req).2 :=
                (congrArg Prod.snd h).symm
              subst htr
              rw [hw]
              simp [expectedKinds, hA, callKind_statePostReq]

/-- Witness for C2: the sequencing theorem applied at the concrete
always-succeeding environment, with the full kind sequence spelt out. -/
theorem C2_call_sequencing_witness :
    (webhook demoClient demoCfg demoEnv "T" demoReqAttrs).2.map callKind =
      expectedKinds demoClient demoReqAttrs := by
  have h := (C2_call_sequencing demoClient demoCfg demoEnv "T" demoReqAttrs
    (by decide)).2
  exact h ⟨"success", "sw1", .on, "on", [("room", "kitchen")]⟩
    ((webhook demoClient demoCfg demoEnv "T" demoReqAttrs).2) (by rfl)

/-- Counterexample to C2 as stated: on a configured switch with
attributes, the first outbound call is already the action call (a `POST`),
not an existence-check; and the state-fetch call kind occurs twice, so a
step repeats. -/
theorem C2_counterexample :
    (webhook demoClient demoCfg demoEnv "T" demoReqAttrs).2.map callKind =
      [callKind (onReq demoClient "sw1"),
       callKind (stateReq demoClient "sw1"),
       statePostKind demoClient "sw1",
       callKind (stateReq demoClient "sw1")] ∧
    ((webhook demoClient demoCfg demoEnv "T" demoReqAttrs).2.map
        callKind).head? = some (callKind (onReq demoClient "sw1")) ∧
    (callKind (onReq demoClient "sw1")).1 = "POST" ∧
    ((webhook demoClient demoCfg demoEnv "T" demoReqAttrs).2.map
        callKind).count (callKind (stateReq demoClient "sw1")) = 2 := by
  refine ⟨by decide, by decide, rfl, by decide⟩

/-- Every rejection of `verify_jwt_token` carries status 401. -/
theorem verify_error_implies_401 (secret : String) (now : Int) (t : JwtToken)
    (code : Nat) (h : verify_jwt_token secret now t = .error code) :
    code = 401 := by
  by_cases hs : sigOk secret t
  · cases he : dlookup t.claims "exp" with
    | none =>
        rw [verify_eq_of_no_exp secret now t hs he] at h
        exact Except.noConfusion h
    | some e =>
        rw [verify_eq_of_exp secret now e t hs he] at h
        by_cases hlt : e < now
        · rw [if_pos hlt] at h
          simpa using h.symm
        · rw [if_neg hlt] at h
          exact Except.noConfusion h
  · rw [verify_eq_of_bad_sig secret now t hs] at h
    simpa using h.symm

/-- The handler body itself never produces a 401: that code is reserved
for the authentication dependency. -/
theorem webhook_fst_ne_401 (c : HAClient) (cfg : List SwitchConfig)
    (env : Env) (nowStr : String) (req : WebhookRequest) :
    (webhook c cfg env nowStr req).1 ≠ .error 401 := by
  rcases webhook_result_cases c cfg env nowStr req with
    ⟨-, hw⟩ | ⟨-, hw | ⟨st, -, hw⟩⟩
  · rw [hw]; simp
  · rw [hw]; simp
  · rw [hw]; simp

/-- C3 (amended): authentication failure yields 401 with no outbound call;
an unconfigured switch yields 404 before any outbound call; a raising
action call during dispatch yields 500, and so does a raising state read —
the one request that serves both as the attribute-merge's read and as the
final fetch; any success carries status `success` with the state and
attributes of the final fetch; every failure code is 401, 404 or 500.
(A failing attribute-merge state-write, however, is swallowed inside
`set_attributes` and does not produce a 500 — see the counterexample.) -/
theorem C3_error_mapping (c : HAClient) (cfg : List SwitchConfig)
    (env : Env) (secret : String) (now : Int) (nowStr : String)
    (tok : JwtToken) (req : WebhookRequest) :
    (verify_jwt_token secret now tok = .error 401 →
      webhook_endpoint c cfg env secret now nowStr tok req =
        (.error 401, [])) ∧
    (verify_jwt_token secret now tok ≠ .error 401 →
      get_switch_by_id cfg req.switch_id = none →
      webhook_endpoint c cfg env secret now nowStr tok req =
        (.error 404, [])) ∧
    (∀ p, verify_jwt_token secret now tok = .ok p →
      get_switch_by_id cfg req.switch_id ≠ none →
      (dispatchAction c env req.action req.switch_id).1 = .error () →
      (webhook_endpoint c cfg env secret now nowStr tok req).1 =
        .error 500) ∧
    (∀ p, verify_jwt_token secret now tok = .ok p →
      get_switch_by_id cfg req.switch_id ≠ none →
      (dispatchAction c env req.action req.switch_id).1 = .ok () →
      env (stateReq c req.switch_id) = .error () →
      (webhook_endpoint c cfg env secret now nowStr tok req).1 =
        .error 500) ∧
    (∀ resp tr,
      webhook_endpoint c cfg env secret now nowStr tok req = (.ok resp, tr) →
      resp.status = "success" ∧
      ∃ st, env (stateReq c req.switch_id) = .ok st ∧
        resp.state = st.state.getD "unknown" ∧
        resp.attributes = st.attributes.getD []) ∧
    (∀ code tr,
      webhook_endpoint c cfg env secret now nowStr tok req =
        (.error code, tr) →
      code = 401 ∨ code = 404 ∨ code = 500) := by
  cases hv : verify_jwt_token secret now tok with
  | error code =>
      have h401 : code = 401 := verify_error_implies_401 secret now tok code hv
      subst h401
      refine ⟨fun _ => by simp [webhook_endpoint, hv],
              fun hne _ => absurd rfl hne,
              fun p hp _ _ => Except.noConfusion hp,
              fun p hp _ _ _ => Except.noConfusion hp, ?_, ?_⟩
      · intro resp tr h
        simp [webhook_endpoint, hv] at h
      · intro code' tr h
        simp only [webhook_endpoint, hv] at h
        have := congrArg Prod.fst h
        simp at this
        exact Or.inl this.symm
  | ok p =>
      have hend : webhook_endpoint c cfg env secret now nowStr tok req =
          webhook c cfg env nowStr req := by
        simp [webhook_endpoint, hv]
      refine ⟨fun h => Except.noConfusion h, ?_, ?_, ?_, ?_, ?_⟩
      · intro _ hnone
        rw [hend]
        simp [webhook, hnone]
      · intro p' _ hne hda
        obtain ⟨sw, hsw⟩ := Option.ne_none_iff_exists'.mp hne
        rw [hend]
        rcases hd : dispatchAction c env req.action req.switch_id with ⟨r1, t1⟩
        rw [hd] at hda
        simp only at hda
        subst hda
        simp [webhook, hsw, hd]
      · intro p' _ hne hda hst
        obtain ⟨sw, hsw⟩ := Option.ne_none_iff_exists'.mp hne
        rw [hend]
        rcases hd : dispatchAction c env req.action req.switch_id with ⟨r1, t1⟩
        rw [hd] at hda
        simp only at hda
        subst hda
        by_cases hA : req.attributes.getD [] = []
        · simp [webhook, hsw, hd, hA,
                get_state_eq_error c env req.switch_id () hst]
        · simp [webhook, hsw, hd, hA,
                set_attributes_eq_of_read_error c env nowStr req.switch_id
                  (req.attributes.getD []) () hst]
      · intro resp tr h
        rw [hend] at h
        rcases webhook_result_cases c cfg env nowStr req with
          ⟨-, hw⟩ | ⟨-, hw | ⟨st, hst, hw⟩⟩
        · rw [hw] at h
          simp at h
        · rw [h] at hw
          simp at hw
        · rw [h] at hw
          simp only at hw
          have hr : resp = ⟨"success", req.switch_id, req.action,
              st.state.getD "unknown", st.attributes.getD []⟩ :=
            Except.ok.inj hw
          subst hr
          exact ⟨rfl, st, hst, rfl, rfl⟩
      · intro code tr h
        rw [hend] at h
        rcases webhook_result_cases c cfg env nowStr req with
          ⟨-, hw⟩ | ⟨-, hw | ⟨st, -, hw⟩⟩
        · rw [hw] at h
          have := congrArg Prod.fst h
          simp at this
          exact Or.inr (Or.inl this.symm)
        · rw [h] at hw
          simp only at hw
          have : code = 500 := by simpa using hw
          exact Or.inr (Or.inr this)
        · rw [h] at hw
          simp at hw

/-- Witness for C3: with a concrete well-signed token, an unconfigured
switch gets the 404, and a raising dispatch action call gets the 500. -/
theorem C3_error_mapping_witness :
    webhook_endpoint demoClient demoCfg demoEnv "s3cret" 100 "T"
        ⟨[("iss", 7)], mkSig "s3cret" [("iss", 7)]⟩
        ⟨"missing", .status, none⟩ = (.error 404, []) ∧
    (webhook_endpoint demoClient demoCfg demoAllFailEnv "s3cret" 100 "T"
        ⟨[("iss", 7)], mkSig "s3cret" [("iss", 7)]⟩
        ⟨"sw1", .on, none⟩).1 = .error 500 := by
  have hok : verify_jwt_token "s3cret" 100
      ⟨[("iss", 7)], mkSig "s3cret" [("iss", 7)]⟩ = .ok [("iss", 7)] :=
    verify_eq_of_no_exp _ _ _ (by decide) (by decide)
  constructor
  · have h := (C3_error_mapping demoClient demoCfg demoEnv "s3cret" 100 "T"
      ⟨[("iss", 7)], mkSig "s3cret" [("iss", 7)]⟩
      ⟨"missing", .status, none⟩).2.1
    have hne : verify_jwt_token "s3cret" 100
        ⟨[("iss", 7)], mkSig "s3cret" [("iss", 7)]⟩ ≠ .error 401 := by
      rw [hok]
      exact fun hx => Except.noConfusion hx
    exact h hne (by decide)
  · have h := (C3_error_mapping demoClient demoCfg demoAllFailEnv "s3cret"
      100 "T" ⟨[("iss", 7)], mkSig "s3cret" [("iss", 7)]⟩
      ⟨"sw1", .on, none⟩).2.2.1
    exact h [("iss", 7)] hok (by decide) rfl

/-- Counterexample to C3 as stated: on an environment where the
attribute-merge state-write raises, the request neither fails nor returns
500 — it completes with status `success`, because `set_attributes` catches
the write failure. -/
theorem C3_counterexample :
    (∃ r, r ∈ (webhook demoClient demoCfg demoWriteFailEnv "T"
        demoReqAttrs).2 ∧ demoWriteFailEnv r = .error ()) ∧
    (webhook demoClient demoCfg demoWriteFailEnv "T" demoReqAttrs).1 =
      .ok ⟨"success", "sw1", .on, "off", []⟩ := by
  constructor
  · exact ⟨statePostReq demoClient "sw1"
      (.stateUpdate "off"
        (mergedAttributes [] [("src", "test")] "T")), by decide, by rfl⟩
  · rfl

/-- C6: token verification is stateless and deterministic — whether the
endpoint rejects with 401 depends only on the token, secret and current
time (not on the client, configuration, environment, timestamp string or
request), a 401 rejection issues no outbound request, and once the token
is accepted the endpoint behaves exactly as the handler body. -/
theorem C6_stateless_verification (secret : String) (now : Int)
    (tok : JwtToken) (c c' : HAClient) (cfg cfg' : List SwitchConfig)
    (env env' : Env) (nowStr nowStr' : String) (req req' : WebhookRequest) :
    ((webhook_endpoint c cfg env secret now nowStr tok req).1 =
        .error 401 ↔
     (webhook_endpoint c' cfg' env' secret now nowStr' tok req').1 =
        .error 401) ∧
    ((webhook_endpoint c cfg env secret now nowStr tok req).1 =
        .error 401 →
      (webhook_endpoint c cfg env secret now nowStr tok req).2 = []) ∧
    (∀ p, verify_jwt_token secret now tok = .ok p →
      webhook_endpoint c cfg env secret now nowStr tok req =
        webhook c cfg env nowStr req) := by
  cases hv : verify_jwt_token secret now tok with
  | error code =>
      have h401 : code = 401 := verify_error_implies_401 secret now tok code hv
      subst h401
      exact ⟨by simp [webhook_endpoint, hv],
             by simp [webhook_endpoint, hv],
             fun p hp => Except.noConfusion hp⟩
  | ok p =>
      have hend : ∀ (c₀ : HAClient) (cfg₀ : List SwitchConfig) (env₀ : Env)
          (nowStr₀ : String) (req₀ : WebhookRequest),
          webhook_endpoint c₀ cfg₀ env₀ secret now nowStr₀ tok req₀ =
            webhook c₀ cfg₀ env₀ nowStr₀ req₀ :=
        fun c₀ cfg₀ env₀ nowStr₀ req₀ => by simp [webhook_endpoint, hv]
      refine ⟨?_, ?_, fun q _ => hend c cfg env nowStr req⟩
      · rw [hend, hend]
        exact iff_of_false (webhook_fst_ne_401 c cfg env nowStr req)
          (webhook_fst_ne_401 c' cfg' env' nowStr' req')
      · rw [hend]
        intro h
        exact absurd h (webhook_fst_ne_401 c cfg env nowStr req)

/-- Witness for C6: the acceptance decision for a concrete well-signed
token is the same under two entirely different configurations and
environments, and the accepted token makes the endpoint behave as the
bare handler. -/
theorem C6_stateless_verification_witness :
    (((webhook_endpoint demoClient demoCfg demoEnv "s3cret" 100 "T"
        ⟨[("iss", 7)], mkSig "s3cret" [("iss", 7)]⟩
        ⟨"sw1", .on, none⟩).1 = .error 401 ↔
     (webhook_endpoint ⟨"http://other", "tok2"⟩ [] demoWriteFailEnv
        "s3cret" 100 "U"
        ⟨[("iss", 7)], mkSig "s3cret" [("iss", 7)]⟩
        ⟨"zz", .off, none⟩).1 = .error 401)) ∧
    webhook_endpoint demoClient demoCfg demoEnv "s3cret" 100 "T"
        ⟨[("iss", 7)], mkSig "s3cret" [("iss", 7)]⟩ ⟨"sw1", .on, none⟩ =
      webhook demoClient demoCfg demoEnv "T" ⟨"sw1", .on, none⟩ := by
  have h := C6_stateless_verification "s3cret" 100
    ⟨[("iss", 7)], mkSig "s3cret" [("iss", 7)]⟩
    demoClient ⟨"http://other", "tok2"⟩ demoCfg [] demoEnv demoWriteFailEnv
    "T" "U" ⟨"sw1", .on, none⟩ ⟨"zz", .off, none⟩
  exact ⟨h.1, h.2.2 [("iss", 7)]
    (verify_eq_of_no_exp "s3cret" 100
      ⟨[("iss", 7)], mkSig "s3cret" [("iss", 7)]⟩ (by decide) (by decide))⟩

/-- C7: the request schema admits exactly the four actions `on`, `off`,
`toggle`, `status`; and a `status` request without attributes issues
exactly one outbound call — the state fetch, a `GET` — so no turn-on,
turn-off, toggle or attribute-update call is made. -/
theorem C7_status_is_read_only (c : HAClient) (cfg : List SwitchConfig)
    (env : Env) (nowStr sid : String)
    (hcfg : get_switch_by_id cfg sid ≠ none) :
    (∀ a : WAction, a = .on ∨ a = .off ∨ a = .toggle ∨ a = .status) ∧
    (webhook c cfg env nowStr ⟨sid, .status, none⟩).2 = [stateReq c sid] ∧
    (stateReq c sid).method = "GET" ∧
    (∀ r ∈ (webhook c cfg env nowStr ⟨sid, .status, none⟩).2,
      r.method ≠ "POST") := by
  obtain ⟨sw, hsw⟩ := Option.ne_none_iff_exists'.mp hcfg
  have htr : (webhook c cfg env nowStr ⟨sid, .status, none⟩).2 =
      [stateReq c sid] := by
    cases hst : env (stateReq c sid) with
    | error e =>
        simp [webhook, hsw, dispatchAction,
              get_state_eq_error c env sid e hst]
    | ok st =>
        simp [webhook, hsw, dispatchAction,
              get_state_eq_ok c env sid st hst]
  refine ⟨fun a => by cases a <;> simp, htr, rfl, ?_⟩
  rw [htr]
  intro r hr
  have hr' : r = stateReq c sid := by simpa using hr
  subst hr'
  simp [stateReq, mkReq]

/-- Witness for C7: the concrete `status` request issues exactly the one
`GET` state fetch. -/
theorem C7_status_is_read_only_witness :
    (webhook demoClient demoCfg demoEnv "T" ⟨"sw1", .status, none⟩).2 =
      [stateReq demoClient "sw1"] :=
  (C7_status_is_read_only demoClient demoCfg demoEnv "T" "sw1"
    (by decide)).2.1

/-- C4 (amended): the client wraps five per-switch outbound operations
(get state, turn on, turn off, toggle, set attributes) — plus the startup
existence-check — and every request any of them issues goes to the single
configured base URL under `/api/` with the same fixed total timeout of 10
seconds. -/
theorem C4_client_operations (c : HAClient) (env : Env)
    (nowStr sid : String) (attrs : Dict String) :
    clientOps.length = 5 ∧
    (∀ op ∈ clientOps, ∀ r ∈ (runOp c env nowStr sid attrs op).2,
      r.timeout = 10 ∧ ∃ ep, r.url = c.base_url ++ "/api/" ++ ep) ∧
    (∀ sw : SwitchConfig, ∀ r ∈ (ensure_switch_exists c env sw).2,
      r.timeout = 10 ∧ ∃ ep, r.url = c.base_url ++ "/api/" ++ ep) := by
  refine ⟨rfl, ?_, ?_⟩
  · intro op _ r hr
    cases op with
    | getState =>
        have hr' : r = mkReq c "GET" ("states/" ++ get_entity_id sid) none := by
          simpa [runOp, get_state, make_request] using hr
        subst hr'
        exact ⟨rfl, _, rfl⟩
    | turnOn =>
        have hr' : r = mkReq c "POST" "services/input_boolean/turn_on"
            (some (.entity (get_entity_id sid))) := by
          simpa [runOp, turn_on, make_request] using hr
        subst hr'
        exact ⟨rfl, _, rfl⟩
    | turnOff =>
        have hr' : r = mkReq c "POST" "services/input_boolean/turn_off"
            (some (.entity (get_entity_id sid))) := by
          simpa [runOp, turn_off, make_request] using hr
        subst hr'
        exact ⟨rfl, _, rfl⟩
    | toggleOp =>
        have hr' : r = mkReq c "POST" "services/input_boolean/toggle"
            (some (.entity (get_entity_id sid))) := by
          simpa [runOp, toggle, make_request] using hr
        subst hr'
        exact ⟨rfl, _, rfl⟩
    | setAttributes =>
        cases hst : env (stateReq c sid) with
        | error e =>
            have hr' : r = stateReq c sid := by
              simpa [runOp,
                set_attributes_eq_of_read_error c env nowStr sid attrs e hst]
                using hr
            subst hr'
            exact ⟨rfl, _, rfl⟩
        | ok resp =>
            have hr' : r = stateReq c sid ∨
                r = statePostReq c sid
                  (.stateUpdate (resp.state.getD "unknown")
                    (mergedAttributes (resp.attributes.getD [])
                      attrs nowStr)) := by
              simpa [runOp,
                set_attributes_eq_of_read_ok c env nowStr sid attrs resp hst]
                using hr
            rcases hr' with rfl | rfl
            · exact ⟨rfl, _, rfl⟩
            · exact ⟨rfl, _, rfl⟩
  · intro sw r hr
    cases hp : env (mkReq c "GET" ("states/" ++ get_entity_id sw.id) none) with
    | ok resp =>
        have hr' : r = mkReq c "GET" ("states/" ++ get_entity_id sw.id)
            none := by
          simpa [ensure_switch_exists, make_request, hp] using hr
        subst hr'
        exact ⟨rfl, _, rfl⟩
    | error e =>
        have hr' : r = mkReq c "GET" ("states/" ++ get_entity_id sw.id)
              none ∨
            r = mkReq c "POST" "services/input_boolean/create"
              (some (.createHelper sw.name sw.icon false)) := by
          cases hc : env (mkReq c "POST" "services/input_boolean/create"
              (some (.createHelper sw.name sw.icon false))) with
          | ok resp2 =>
              simpa [ensure_switch_exists, make_request, hp, hc] using hr
          | error e2 =>
              simpa [ensure_switch_exists, make_request, hp, hc] using hr
        rcases hr' with rfl | rfl
        · exact ⟨rfl, _, rfl⟩
        · exact ⟨rfl, _, rfl⟩

/-- Witness for C4: the concrete state-fetch request of the concrete
client has the fixed timeout and targets the configured base URL. -/
theorem C4_client_operations_witness :
    (stateReq demoClient "sw1").timeout = 10 ∧
    ∃ ep, (stateReq demoClient "sw1").url =
      demoClient.base_url ++ "/api/" ++ ep := by
  have h := (C4_client_operations demoClient demoEnv "T" "sw1" []).2.1
  exact h .getState (by decide) (stateReq demoClient "sw1") (by decide)

/-- Counterexample to C4 as stated: the client exposes five — not four —
outbound call operations, with pairwise distinct request traces at a
concrete environment. -/
theorem C4_counterexample :
    clientOps.length ≠ 4 ∧
    (clientOps.map fun op =>
      (runOp demoClient demoEnv "T" "sw1" [("src", "test")] op).2).Nodup :=
  ⟨by decide, by decide⟩

end Webhook
